import Mathlib

/-!
Shallow embedding of
`packages/node-opcua-server-configuration/source/clientTools/pull_certificate_management_client.ts`.

The TypeScript class `ClientPullCertificateManagement` drives four remote
certificate-lifecycle operations through an `IBasicSession` collaborator.
Each public method builds a positional argument list (`Invocation Builder`),
submits it via `session.call` (`Method Dispatcher`) and interprets the
returned `CallMethodResult` (`Result Interpreter`).  We embed the builders
as pure functions producing a `CallMethodRequestLike`, the interpreters as
pure functions from a `CallMethodResult` to `Except JsError result`
(`Except.error` models a thrown JavaScript exception), and the complete
methods as their composition through an abstract session.
-/

namespace NodeOpcua

/-- Status codes are modelled by their numeric value from node-opcua-status-code. -/
abbrev StatusCode := Nat

namespace StatusCodes

/-- StatusCodes.Good (0x00000000). -/
def Good : StatusCode := 0x00000000

/-- StatusCodes.BadInvalidArgument (0x80AB0000). -/
def BadInvalidArgument : StatusCode := 0x80AB0000

/-- StatusCodes.BadInternalError (0x80020000). -/
def BadInternalError : StatusCode := 0x80020000

/-- StatusCodes.BadUserAccessDenied (0x801F0000). -/
def BadUserAccessDenied : StatusCode := 0x801F0000

end StatusCodes

/-- NodeIds are modelled by the numeric identifier of `resolveNodeId "i=<n>"` (namespace 0). -/
abbrev NodeId := Nat

/-- resolveNodeId("i=12637") — Server_ServerConfiguration. -/
def serverConfigurationNodeId : NodeId := 12637

/-- resolveNodeId("i=12737") — Server_ServerConfiguration_CreateSigningRequest. -/
def createSigningRequestMethod : NodeId := 12737

/-- resolveNodeId("i=12777") — Server_ServerConfiguration_GetRejectedListRequest. -/
def getRejectedListMethod : NodeId := 12777

/-- resolveNodeId("i=13737") — Server_ServerConfiguration_UpdateCertificate. -/
def updateCertificateMethod : NodeId := 13737

/-- resolveNodeId("i=14053") — Server_ServerConfiguration_CertificateGroups. -/
def certificateGroups : NodeId := 14053

/-- resolveNodeId("i=14156") — Server_ServerConfiguration_CertificateGroups_DefaultApplicationGroup. -/
def defaultApplicationGroup : NodeId := 14156

/-- resolveNodeId("i=12740") — Server_ServerConfiguration_ApplyChanges. -/
def applyChangesMethod : NodeId := 12740

/-- The `DataType` discriminants used by this client (node-opcua-variant). -/
inductive DataType
  | Null
  | Boolean
  | String
  | NodeId
  | ByteString
deriving DecidableEq, Repr

/-- VariantArrayType (node-opcua-variant): scalar vs array payloads. -/
inductive VariantArrayType
  | Scalar
  | Array
deriving DecidableEq, Repr

/-- The runtime payload of a variant's untyped `value` field. A `Buffer` is a
list of bytes, a `Buffer[]` a list of byte lists; `absent` stands for the
JavaScript `undefined`/missing property. -/
inductive VValue
  | ofNodeId (n : NodeId)
  | ofString (s : String)
  | ofBool (b : Bool)
  | ofBytes (b : List Nat)
  | ofBytesList (bs : List (List Nat))
  | absent
deriving DecidableEq, Repr

/-- A `VariantLike` as the client constructs and receives them: a `dataType`
tag, an `arrayType` (defaulting to Scalar as in node-opcua) and an untyped
`value` (defaulting to absent when the property is not set). -/
structure VariantLike where
  dataType : DataType
  arrayType : VariantArrayType := VariantArrayType.Scalar
  value : VValue := VValue.absent
deriving DecidableEq, Repr

/-- The specification's Typed-Value kinds: Identifier, Text, Boolean,
Raw-Bytes, Raw-Bytes-Sequence, Absent.  In the code the kind is determined
by the `(dataType, arrayType)` pair of a variant. -/
inductive VKind
  | identifier
  | text
  | boolean
  | rawBytes
  | rawBytesSeq
  | absent
  | other
deriving DecidableEq, Repr

/-- The kind of a variant, read off its discriminants. -/
def VariantLike.kind (v : VariantLike) : VKind :=
  match v.dataType, v.arrayType with
  | DataType.Null, _ => VKind.absent
  | DataType.NodeId, VariantArrayType.Scalar => VKind.identifier
  | DataType.String, VariantArrayType.Scalar => VKind.text
  | DataType.Boolean, VariantArrayType.Scalar => VKind.boolean
  | DataType.ByteString, VariantArrayType.Scalar => VKind.rawBytes
  | DataType.ByteString, VariantArrayType.Array => VKind.rawBytesSeq
  | _, _ => VKind.other

/-- CallMethodRequestLike: target object, method and positional arguments. -/
structure CallMethodRequestLike where
  objectId : NodeId
  methodId : NodeId
  inputArguments : List VariantLike
deriving DecidableEq, Repr

/-- CallMethodResult as consumed by this client: a status code and an
optional array of output variants (`none` models an `undefined` field). -/
structure CallMethodResult where
  statusCode : StatusCode
  outputArguments : Option (List VariantLike) := none
deriving DecidableEq, Repr

/-- A thrown JavaScript exception: either a TypeError raised by dereferencing
`undefined`, or an explicit `throw new Error(msg)`. -/
inductive JsError
  | typeError (msg : String)
  | error (msg : String)
deriving DecidableEq, Repr

deriving instance DecidableEq for Except

/-- Models the JavaScript expression `callMethodResult.outputArguments![0]`:
if `outputArguments` is `undefined` or the array is empty, accessing a
property of the result throws a TypeError; otherwise it yields the first
element. -/
def derefFirst : Option (List VariantLike) → Except JsError VariantLike
  | none => Except.error (JsError.typeError "Cannot read properties of undefined")
  | some [] => Except.error (JsError.typeError "Cannot read properties of undefined")
  | some (v :: _) => Except.ok v

/-- JavaScript truthiness of the optional string `privateKeyFormat`:
`undefined` and the empty string are falsy, every other string is truthy. -/
def strTruthy : Option String → Bool
  | some s => s != ""
  | none => false

/-- JavaScript coercion of an optional Buffer used as a variant `value`:
`undefined` becomes an absent property, a Buffer its byte content.  Note an
empty Buffer is still an object, hence present. -/
def optBytes : Option (List Nat) → VValue
  | some b => VValue.ofBytes b
  | none => VValue.absent

/-- CreateSigningRequestResult: statusCode plus optional raw signing-request
value (the code stores `outputArguments[0].value` untyped). -/
structure CreateSigningRequestResult where
  statusCode : StatusCode
  certificateSigningRequest : Option VValue := none
deriving DecidableEq, Repr

/-- GetRejectedListResult: statusCode plus optional raw certificates value. -/
structure GetRejectedListResult where
  statusCode : StatusCode
  certificates : Option VValue := none
deriving DecidableEq, Repr

/-- UpdateCertificateResult: statusCode plus optional raw applyChangeRequired
value. -/
structure UpdateCertificateResult where
  statusCode : StatusCode
  applyChangeRequired : Option VValue := none
deriving DecidableEq, Repr

/-- The IBasicSession collaborator, reduced to its single consumed
capability: `call : CallMethodRequestLike → CallMethodResult`. -/
structure IBasicSession where
  call : CallMethodRequestLike → CallMethodResult

/-- A session that answers every call with the fixed outcome `r`; used to
instantiate theorems at concrete outcomes. -/
def constSession (r : CallMethodResult) : IBasicSession := ⟨fun _ => r⟩

/-- Invocation built by `createSigningRequest` (source lines 87-98). -/
def createSigningRequestBuild (certificateGroupId certificateTypeId : NodeId)
    (subjectName : String) (regeneratePrivateKey : Option Bool)
    (nonce : Option (List Nat)) : CallMethodRequestLike :=
  { objectId := serverConfigurationNodeId
    methodId := createSigningRequestMethod
    inputArguments := [
      { dataType := DataType.NodeId, value := VValue.ofNodeId certificateGroupId },
      { dataType := DataType.NodeId, value := VValue.ofNodeId certificateTypeId },
      { dataType := DataType.String, value := VValue.ofString subjectName },
      { dataType := DataType.Boolean, value := VValue.ofBool (regeneratePrivateKey.getD false) },
      { dataType := if nonce.isSome then DataType.ByteString else DataType.Null,
        value := optBytes nonce } ] }

/-- Result interpretation of `createSigningRequest` (source lines 101-109):
on Good dereferences `outputArguments![0].value` unconditionally, otherwise
returns only the status code. -/
def createSigningRequestInterpret (callMethodResult : CallMethodResult) :
    Except JsError CreateSigningRequestResult :=
  if callMethodResult.statusCode = StatusCodes.Good then
    match derefFirst callMethodResult.outputArguments with
    | Except.error e => Except.error e
    | Except.ok v =>
        Except.ok { certificateSigningRequest := some v.value
                    statusCode := callMethodResult.statusCode }
  else
    Except.ok { statusCode := callMethodResult.statusCode }

/-- The complete `createSigningRequest` method: build, dispatch, interpret. -/
def createSigningRequest (session : IBasicSession)
    (certificateGroupId certificateTypeId : NodeId) (subjectName : String)
    (regeneratePrivateKey : Option Bool) (nonce : Option (List Nat)) :
    Except JsError CreateSigningRequestResult :=
  createSigningRequestInterpret
    (session.call (createSigningRequestBuild certificateGroupId certificateTypeId
      subjectName regeneratePrivateKey nonce))

/-- Invocation built by `getRejectedList` (source lines 124-129): no
arguments. -/
def getRejectedListRequest : CallMethodRequestLike :=
  { objectId := serverConfigurationNodeId
    methodId := getRejectedListMethod
    inputArguments := [] }

/-- Result interpretation of `getRejectedList` (source lines 131-143): on
Good, checks only that `outputArguments![0].dataType` is ByteString (not its
arrayType); a non-ByteString dataType is downgraded to BadInvalidArgument. -/
def getRejectedListInterpret (callMethodResult : CallMethodResult) :
    Except JsError GetRejectedListResult :=
  if callMethodResult.statusCode = StatusCodes.Good then
    match derefFirst callMethodResult.outputArguments with
    | Except.error e => Except.error e
    | Except.ok v =>
        if v.dataType ≠ DataType.ByteString then
          Except.ok { statusCode := StatusCodes.BadInvalidArgument }
        else
          Except.ok { certificates := some v.value
                      statusCode := callMethodResult.statusCode }
  else
    Except.ok { statusCode := callMethodResult.statusCode }

/-- The complete `getRejectedList` method. -/
def getRejectedList (session : IBasicSession) : Except JsError GetRejectedListResult :=
  getRejectedListInterpret (session.call getRejectedListRequest)

/-- Invocation built by `updateCertificate` (source lines 203-219): the two
private-key positions are both gated on the truthiness of
`privateKeyFormat`; position 6's `value` is `privateKey` itself, which may
be undefined even when the format is truthy. -/
def updateCertificateBuild (certificateGroupId certificateTypeId : NodeId)
    (certificate : List Nat) (issuerCertificates : List (List Nat))
    (privateKeyFormat : Option String) (privateKey : Option (List Nat)) :
    CallMethodRequestLike :=
  { objectId := serverConfigurationNodeId
    methodId := updateCertificateMethod
    inputArguments := [
      { dataType := DataType.NodeId, value := VValue.ofNodeId certificateGroupId },
      { dataType := DataType.NodeId, value := VValue.ofNodeId certificateTypeId },
      { dataType := DataType.ByteString, value := VValue.ofBytes certificate },
      { dataType := DataType.ByteString, arrayType := VariantArrayType.Array,
        value := VValue.ofBytesList issuerCertificates },
      if strTruthy privateKeyFormat then
        { dataType := DataType.String, value := VValue.ofString (privateKeyFormat.getD "") }
      else
        { dataType := DataType.Null },
      if strTruthy privateKeyFormat then
        { dataType := DataType.ByteString, value := optBytes privateKey }
      else
        { dataType := DataType.Null } ] }

/-- Result interpretation of `updateCertificate` (source lines 221-234): on
Good, an undefined output array or a length other than one yields
BadInternalError; otherwise the single output's value is returned. -/
def updateCertificateInterpret (callMethodResult : CallMethodResult) :
    Except JsError UpdateCertificateResult :=
  if callMethodResult.statusCode = StatusCodes.Good then
    if callMethodResult.outputArguments = none ∨
        (callMethodResult.outputArguments.getD []).length ≠ 1 then
      Except.ok { statusCode := StatusCodes.BadInternalError }
    else
      match derefFirst callMethodResult.outputArguments with
      | Except.error e => Except.error e
      | Except.ok v =>
          Except.ok { applyChangeRequired := some v.value
                      statusCode := callMethodResult.statusCode }
  else
    Except.ok { statusCode := callMethodResult.statusCode }

/-- The complete `updateCertificate` method. -/
def updateCertificate (session : IBasicSession)
    (certificateGroupId certificateTypeId : NodeId) (certificate : List Nat)
    (issuerCertificates : List (List Nat)) (privateKeyFormat : Option String)
    (privateKey : Option (List Nat)) : Except JsError UpdateCertificateResult :=
  updateCertificateInterpret
    (session.call (updateCertificateBuild certificateGroupId certificateTypeId
      certificate issuerCertificates privateKeyFormat privateKey))

/-- Invocation built by `applyChanges` (source lines 260-264): no arguments. -/
def applyChangesRequest : CallMethodRequestLike :=
  { objectId := serverConfigurationNodeId
    methodId := applyChangesMethod
    inputArguments := [] }

/-- Result interpretation of `applyChanges` (source lines 267-270): throws on
any defined, non-empty output array regardless of the status; otherwise
returns the raw status code. -/
def applyChangesInterpret (callMethodResult : CallMethodResult) :
    Except JsError StatusCode :=
  match callMethodResult.outputArguments with
  | some outs =>
      if outs.length ≠ 0 then
        Except.error (JsError.error "Invalid  output arguments")
      else
        Except.ok callMethodResult.statusCode
  | none => Except.ok callMethodResult.statusCode

/-- The complete `applyChanges` method. -/
def applyChanges (session : IBasicSession) : Except JsError StatusCode :=
  applyChangesInterpret (session.call applyChangesRequest)

/-- `getCertificateGroupId` (source lines 273-280): only the literal name
"DefaultApplicationGroup" is supported; anything else throws
`Error("Not Implemented yet")`. -/
def getCertificateGroupId (certificateGroupName : String) : Except JsError NodeId :=
  if certificateGroupName = "DefaultApplicationGroup" then
    Except.ok defaultApplicationGroup
  else
    Except.error (JsError.error "Not Implemented yet")

/-! Concrete outcomes and variants used to instantiate the theorems below. -/

/-- A scalar ByteString output variant: kind Raw-Bytes, not Raw-Bytes-Sequence. -/
def scalarBytesVariant : VariantLike :=
  { dataType := DataType.ByteString, value := VValue.ofBytes [1, 2] }

/-- A successful outcome carrying a single scalar ByteString output. -/
def scalarBytesOutcome : CallMethodResult :=
  { statusCode := StatusCodes.Good, outputArguments := some [scalarBytesVariant] }

/-- A scalar String output variant: its dataType is not ByteString. -/
def textVariant : VariantLike :=
  { dataType := DataType.String, value := VValue.ofString "x" }

/-- A successful outcome carrying a single String output. -/
def textOutcome : CallMethodResult :=
  { statusCode := StatusCodes.Good, outputArguments := some [textVariant] }

/-- A Boolean output variant with value true. -/
def boolTrueVariant : VariantLike :=
  { dataType := DataType.Boolean, value := VValue.ofBool true }

/-- A successful outcome with one unexpected Boolean output. -/
def applyBadOutcome : CallMethodResult :=
  { statusCode := StatusCodes.Good, outputArguments := some [boolTrueVariant] }

/-- A successful outcome with an empty output array. -/
def emptyOutputsOutcome : CallMethodResult :=
  { statusCode := StatusCodes.Good, outputArguments := some [] }

/-- A successful outcome with exactly one Boolean output, value true. -/
def updOkOutcome : CallMethodResult :=
  { statusCode := StatusCodes.Good, outputArguments := some [boolTrueVariant] }

/-- A BadUserAccessDenied outcome that nonetheless carries an output value. -/
def deniedOutcome : CallMethodResult :=
  { statusCode := StatusCodes.BadUserAccessDenied, outputArguments := some [boolTrueVariant] }

/-- A successful outcome whose single output is a Raw-Bytes value 0xAA 0xBB. -/
def csrVariant : VariantLike :=
  { dataType := DataType.ByteString, value := VValue.ofBytes [0xAA, 0xBB] }

/-- The scenario-A outcome for createSigningRequest. -/
def csrOutcome : CallMethodResult :=
  { statusCode := StatusCodes.Good, outputArguments := some [csrVariant] }

/-- A successful outcome with an undefined output array. -/
def noOutputsOutcome : CallMethodResult :=
  { statusCode := StatusCodes.Good, outputArguments := none }

/-- C1, counterexample: the session answers getRejectedList with success and a
single output of kind Raw-Bytes (a scalar ByteString), which is not
Raw-Bytes-Sequence; the claim requires BadInvalidArgument with certificates
absent, but the code checks only the dataType discriminant, accepts the
scalar and returns success with certificates populated. -/
theorem getRejectedList_rawBytes_scalar_counterexample :
    scalarBytesOutcome.statusCode = StatusCodes.Good ∧
    scalarBytesOutcome.outputArguments = some [scalarBytesVariant] ∧
    scalarBytesVariant.kind = VKind.rawBytes ∧
    scalarBytesVariant.kind ≠ VKind.rawBytesSeq ∧
    getRejectedList (constSession scalarBytesOutcome) =
      Except.ok { statusCode := StatusCodes.Good, certificates := some (VValue.ofBytes [1, 2]) } ∧
    getRejectedList (constSession scalarBytesOutcome) ≠
      Except.ok { statusCode := StatusCodes.BadInvalidArgument } := by
  exact ⟨rfl, rfl, rfl, by decide, by decide, by decide⟩

/-- C1, amended: on a successful getRejectedList outcome the interpreter checks
only the dataType discriminant of the first output value: if it is not
ByteString the result is BadInvalidArgument with certificates absent; if it is
ByteString — kind Raw-Bytes or Raw-Bytes-Sequence alike — the result is
success with certificates equal to that output's value. -/
theorem getRejectedList_good_dataType_check (session : IBasicSession)
    (r : CallMethodResult) (v : VariantLike) (rest : List VariantLike)
    (hcall : session.call getRejectedListRequest = r)
    (hs : r.statusCode = StatusCodes.Good)
    (ho : r.outputArguments = some (v :: rest)) :
    (v.dataType ≠ DataType.ByteString →
      getRejectedList session = Except.ok { statusCode := StatusCodes.BadInvalidArgument }) ∧
    (v.dataType = DataType.ByteString →
      getRejectedList session =
        Except.ok { statusCode := StatusCodes.Good, certificates := some v.value }) := by
  constructor <;> intro hd <;>
    simp [getRejectedList, hcall, getRejectedListInterpret, hs, ho, derefFirst, hd]

/-- C1, witness for the amended theorem at a String-typed output. -/
theorem getRejectedList_good_dataType_check_witness :
    getRejectedList (constSession textOutcome) =
      Except.ok { statusCode := StatusCodes.BadInvalidArgument } :=
  (getRejectedList_good_dataType_check (constSession textOutcome) textOutcome
    textVariant [] rfl rfl rfl).1 (by decide)

/-- C2: applyChanges throws the hard local error "Invalid  output arguments"
whenever the outcome carries a non-empty output sequence, regardless of its
status code; when the output sequence is empty or undefined it returns the
outcome's status code unchanged with no error. -/
theorem applyChanges_output_guard (session : IBasicSession) (r : CallMethodResult)
    (hcall : session.call applyChangesRequest = r) :
    (∀ v rest, r.outputArguments = some (v :: rest) →
      applyChanges session = Except.error (JsError.error "Invalid  output arguments")) ∧
    (r.outputArguments = none ∨ r.outputArguments = some [] →
      applyChanges session = Except.ok r.statusCode) := by
  constructor
  · intro v rest ho
    simp [applyChanges, hcall, applyChangesInterpret, ho]
  · rintro (ho | ho) <;> simp [applyChanges, hcall, applyChangesInterpret, ho]

/-- C2, witness: a success outcome with one output throws; a success outcome
with zero outputs returns Good (end-to-end scenario C). -/
theorem applyChanges_output_guard_witness :
    applyChanges (constSession applyBadOutcome) =
      Except.error (JsError.error "Invalid  output arguments") ∧
    applyChanges (constSession emptyOutputsOutcome) = Except.ok StatusCodes.Good :=
  ⟨(applyChanges_output_guard (constSession applyBadOutcome) applyBadOutcome rfl).1
      boolTrueVariant [] rfl,
   (applyChanges_output_guard (constSession emptyOutputsOutcome) emptyOutputsOutcome rfl).2
      (Or.inr rfl)⟩

/-- C3: on a successful updateCertificate outcome whose output sequence is
undefined or has length different from one, the result is BadInternalError
with applyChangeRequired absent; with exactly one output the result is
success with applyChangeRequired equal to that output's value. -/
theorem updateCertificate_good_shape_check (session : IBasicSession)
    (g t : NodeId) (c : List Nat) (ics : List (List Nat))
    (fmt : Option String) (pk : Option (List Nat)) (r : CallMethodResult)
    (hcall : session.call (updateCertificateBuild g t c ics fmt pk) = r)
    (hs : r.statusCode = StatusCodes.Good) :
    ((r.outputArguments = none ∨ (r.outputArguments.getD []).length ≠ 1) →
      updateCertificate session g t c ics fmt pk =
        Except.ok { statusCode := StatusCodes.BadInternalError }) ∧
    (∀ v, r.outputArguments = some [v] →
      updateCertificate session g t c ics fmt pk =
        Except.ok { statusCode := StatusCodes.Good, applyChangeRequired := some v.value }) := by
  constructor
  · intro ho
    simp [updateCertificate, hcall, updateCertificateInterpret, hs, if_pos ho]
  · intro v ho
    simp [updateCertificate, hcall, updateCertificateInterpret, hs, ho, derefFirst]

/-- C3, witness: an empty output array yields BadInternalError; a single
Boolean output true yields success with applyChangeRequired true
(end-to-end scenario D). -/
theorem updateCertificate_good_shape_check_witness :
    updateCertificate (constSession emptyOutputsOutcome) 0 0 [] [] none none =
      Except.ok { statusCode := StatusCodes.BadInternalError } ∧
    updateCertificate (constSession updOkOutcome) 0 0 [] [] none none =
      Except.ok { statusCode := StatusCodes.Good,
                  applyChangeRequired := some (VValue.ofBool true) } :=
  ⟨(updateCertificate_good_shape_check (constSession emptyOutputsOutcome)
      0 0 [] [] none none emptyOutputsOutcome rfl rfl).1 (by decide),
   (updateCertificate_good_shape_check (constSession updOkOutcome)
      0 0 [] [] none none updOkOutcome rfl rfl).2 boolTrueVariant rfl⟩

/-- C4: whenever the outcome's status is not Good, createSigningRequest,
getRejectedList and updateCertificate each return a record holding exactly
that status, with every typed field absent and no error thrown, regardless
of any output values present in the outcome. -/
theorem nonGood_status_propagation (session : IBasicSession)
    (g t : NodeId) (s : String) (regen : Option Bool) (nonce : Option (List Nat))
    (c : List Nat) (ics : List (List Nat)) (fmt : Option String) (pk : Option (List Nat))
    (r : CallMethodResult)
    (h1 : session.call (createSigningRequestBuild g t s regen nonce) = r)
    (h2 : session.call getRejectedListRequest = r)
    (h3 : session.call (updateCertificateBuild g t c ics fmt pk) = r)
    (hbad : r.statusCode ≠ StatusCodes.Good) :
    createSigningRequest session g t s regen nonce = Except.ok { statusCode := r.statusCode } ∧
    getRejectedList session = Except.ok { statusCode := r.statusCode } ∧
    updateCertificate session g t c ics fmt pk = Except.ok { statusCode := r.statusCode } := by
  refine ⟨?_, ?_, ?_⟩ <;>
    simp [createSigningRequest, getRejectedList, updateCertificate, h1, h2, h3,
      createSigningRequestInterpret, getRejectedListInterpret, updateCertificateInterpret, hbad]

/-- C4, witness at a BadUserAccessDenied outcome that carries an output value
(end-to-end scenario B for updateCertificate). -/
theorem nonGood_status_propagation_witness :
    createSigningRequest (constSession deniedOutcome) 0 0 "" none none =
      Except.ok { statusCode := StatusCodes.BadUserAccessDenied } ∧
    getRejectedList (constSession deniedOutcome) =
      Except.ok { statusCode := StatusCodes.BadUserAccessDenied } ∧
    updateCertificate (constSession deniedOutcome) 0 0 [] [] none none =
      Except.ok { statusCode := StatusCodes.BadUserAccessDenied } :=
  nonGood_status_propagation (constSession deniedOutcome) 0 0 "" none none [] [] none none
    deniedOutcome rfl rfl rfl (by decide)

/-- C5: the createSigningRequest builder produces exactly five arguments, in
order of kinds Identifier, Identifier, Text, Boolean, then Raw-Bytes when a
nonce is supplied and Absent when it is not; the Boolean carries false
whenever regeneratePrivateKey is unspecified, and the other positions carry
the corresponding parameters. -/
theorem createSigningRequest_fixed_schema (g t : NodeId) (s : String)
    (regen : Option Bool) (nonce : Option (List Nat)) :
    (createSigningRequestBuild g t s regen nonce).inputArguments.map VariantLike.kind =
      [VKind.identifier, VKind.identifier, VKind.text, VKind.boolean,
        if nonce.isSome then VKind.rawBytes else VKind.absent] ∧
    (createSigningRequestBuild g t s regen nonce).inputArguments.map VariantLike.value =
      [VValue.ofNodeId g, VValue.ofNodeId t, VValue.ofString s,
        VValue.ofBool (regen.getD false), optBytes nonce] := by
  cases nonce <;>
    simp [createSigningRequestBuild, VariantLike.kind, optBytes]

/-- C6: in the Invocation built by updateCertificate, the private-key-format
argument (position 5) has a non-Absent kind if and only if the private-key
argument (position 6) has a non-Absent kind. -/
theorem updateCertificate_private_key_linked_pair (g t : NodeId) (c : List Nat)
    (ics : List (List Nat)) (fmt : Option String) (pk : Option (List Nat)) :
    (((updateCertificateBuild g t c ics fmt pk).inputArguments.get? 4).map VariantLike.kind
        ≠ some VKind.absent) ↔
    (((updateCertificateBuild g t c ics fmt pk).inputArguments.get? 5).map VariantLike.kind
        ≠ some VKind.absent) := by
  cases hf : strTruthy fmt <;>
    simp [updateCertificateBuild, hf, VariantLike.kind, optBytes]

/-- C7: getCertificateGroupId maps the exact name "DefaultApplicationGroup" to
the fixed default-application-group identifier and throws the
"Not Implemented yet" error on every other input. -/
theorem getCertificateGroupId_lookup (name : String) :
    (name = "DefaultApplicationGroup" →
      getCertificateGroupId name = Except.ok defaultApplicationGroup) ∧
    (name ≠ "DefaultApplicationGroup" →
      getCertificateGroupId name = Except.error (JsError.error "Not Implemented yet")) := by
  constructor <;> intro h <;> simp [getCertificateGroupId, h]

/-- C7, witness at the supported name and at "X". -/
theorem getCertificateGroupId_lookup_witness :
    getCertificateGroupId "DefaultApplicationGroup" = Except.ok defaultApplicationGroup ∧
    getCertificateGroupId "X" = Except.error (JsError.error "Not Implemented yet") :=
  ⟨(getCertificateGroupId_lookup "DefaultApplicationGroup").1 rfl,
   (getCertificateGroupId_lookup "X").2 (by decide)⟩

/-- C8: on a successful createSigningRequest outcome with exactly one output
of kind Raw-Bytes and content b, the result is success with
certificateSigningRequest equal to those bytes. -/
theorem createSigningRequest_success_extracts_bytes (session : IBasicSession)
    (g t : NodeId) (s : String) (regen : Option Bool) (nonce : Option (List Nat))
    (r : CallMethodResult) (v : VariantLike) (b : List Nat)
    (hcall : session.call (createSigningRequestBuild g t s regen nonce) = r)
    (hs : r.statusCode = StatusCodes.Good)
    (ho : r.outputArguments = some [v])
    (_hk : v.kind = VKind.rawBytes)
    (hv : v.value = VValue.ofBytes b) :
    createSigningRequest session g t s regen nonce =
      Except.ok { statusCode := StatusCodes.Good,
                  certificateSigningRequest := some (VValue.ofBytes b) } := by
  simp [createSigningRequest, hcall, createSigningRequestInterpret, hs, ho, derefFirst, hv]

/-- C8, witness: end-to-end scenario A with output bytes 0xAA 0xBB. -/
theorem createSigningRequest_success_extracts_bytes_witness :
    createSigningRequest (constSession csrOutcome) 0 0 "CN=a" none none =
      Except.ok { statusCode := StatusCodes.Good,
                  certificateSigningRequest := some (VValue.ofBytes [0xAA, 0xBB]) } :=
  createSigningRequest_success_extracts_bytes (constSession csrOutcome) 0 0 "CN=a" none none
    csrOutcome csrVariant [0xAA, 0xBB] rfl rfl rfl (by decide) rfl

/-- C9: on a successful outcome whose output sequence is undefined or empty,
createSigningRequest and getRejectedList both dereference the missing first
output value and throw a TypeError instead of returning a result record. -/
theorem good_missing_outputs_throw (session : IBasicSession)
    (g t : NodeId) (s : String) (regen : Option Bool) (nonce : Option (List Nat))
    (r : CallMethodResult)
    (h1 : session.call (createSigningRequestBuild g t s regen nonce) = r)
    (h2 : session.call getRejectedListRequest = r)
    (hs : r.statusCode = StatusCodes.Good)
    (ho : r.outputArguments = none ∨ r.outputArguments = some []) :
    (∃ m, createSigningRequest session g t s regen nonce =
      Except.error (JsError.typeError m)) ∧
    (∃ m, getRejectedList session = Except.error (JsError.typeError m)) := by
  rcases ho with ho | ho <;>
    exact ⟨⟨"Cannot read properties of undefined",
        by simp [createSigningRequest, h1, createSigningRequestInterpret, hs, ho, derefFirst]⟩,
      ⟨"Cannot read properties of undefined",
        by simp [getRejectedList, h2, getRejectedListInterpret, hs, ho, derefFirst]⟩⟩

/-- C9, witness at a successful outcome with an undefined output array. -/
theorem good_missing_outputs_throw_witness :
    (∃ m, createSigningRequest (constSession noOutputsOutcome) 0 0 "" none none =
      Except.error (JsError.typeError m)) ∧
    (∃ m, getRejectedList (constSession noOutputsOutcome) =
      Except.error (JsError.typeError m)) :=
  good_missing_outputs_throw (constSession noOutputsOutcome) 0 0 "" none none
    noOutputsOutcome rfl rfl rfl (Or.inl rfl)

/-- C10: both private-key positions of the updateCertificate Invocation are
gated only on the truthiness of privateKeyFormat: a supplied privateKey with
an undefined or empty-string format is silently dropped (both positions have
kind Absent), while a non-empty format with no privateKey yields a position-6
variant of kind Raw-Bytes whose value is absent. -/
theorem updateCertificate_truthiness_gating (g t : NodeId) (c : List Nat)
    (ics : List (List Nat)) (pk : List Nat) (s : String) :
    (∀ fmt : Option String, fmt = none ∨ fmt = some "" →
      ((updateCertificateBuild g t c ics fmt (some pk)).inputArguments.map
          VariantLike.kind).drop 4 = [VKind.absent, VKind.absent]) ∧
    (s ≠ "" →
      (updateCertificateBuild g t c ics (some s) none).inputArguments.get? 5 =
        some { dataType := DataType.ByteString, value := VValue.absent } ∧
      (((updateCertificateBuild g t c ics (some s) none).inputArguments.get? 5).map
          VariantLike.kind) = some VKind.rawBytes) := by
  constructor
  · rintro fmt (rfl | rfl) <;>
      simp [updateCertificateBuild, strTruthy, VariantLike.kind]
  · intro hne
    have hf : strTruthy (some s) = true := by
      simp [strTruthy, hne]
    constructor <;> simp [updateCertificateBuild, hf, VariantLike.kind, optBytes]

/-- C10, witness: a dropped key at fmt = none, and a Raw-Bytes position with
absent content at fmt = "PEM" without a key. -/
theorem updateCertificate_truthiness_gating_witness :
    ((updateCertificateBuild 0 0 [] [] none (some [7])).inputArguments.map
        VariantLike.kind).drop 4 = [VKind.absent, VKind.absent] ∧
    (updateCertificateBuild 0 0 [] [] (some "PEM") none).inputArguments.get? 5 =
      some { dataType := DataType.ByteString, value := VValue.absent } :=
  ⟨(updateCertificate_truthiness_gating 0 0 [] [] [7] "PEM").1 none (Or.inl rfl),
   ((updateCertificate_truthiness_gating 0 0 [] [] [7] "PEM").2 (by decide)).1⟩

end NodeOpcua
